import Mathlib

/-!
Shallow embedding of `src/roll20_api_scripts/createNPC.js`.

The script is an event-driven chat-command handler for the Roll20 sandbox.
JavaScript values produced by `JSON.parse` are modelled by the inductive
type `Json` (numbers restricted to integers, which is all the program's
inputs use; `undefined` is conflated with `null`, a distinction no claim
observes).  The host collaborators are modelled as follows:

* `JSON.parse` is host library code, not repository code: it is an injected
  parameter `Env.parse : String → Except String Json` (the `Except.error`
  carries the decoder's message).
* `Math.random().toString(36).substring(2, 10)` inside `generateRowID` is a
  fresh draw from an injected stream `Env.rowId : Nat → String`; the k-th
  call of one run returns `Env.rowId k` counting from the initial state.
* `createObj` appends a `createObj` effect to the trace and returns the
  host-assigned opaque id, modelled by the injected stream `Env.objId`.
* `sendChat` and `log` append `chat` / `log` effects to the trace.

Stateful JavaScript is embedded in the monad `M α = St → Except JSError α × St`:
an uncaught exception is an `Except.error` result, and — as in JavaScript —
the effects already performed survive the throw.
-/

namespace CreateNPC

/-- JavaScript values reachable from `JSON.parse` output. -/
inductive Json where
  | null : Json
  | bool (b : Bool) : Json
  | num (n : Int) : Json
  | str (s : String) : Json
  | arr (elems : List Json) : Json
  | obj (fields : List (String × Json)) : Json

/-- A JavaScript exception: `TypeError` or a plain `Error`. -/
inductive JSError where
  | typeError (msg : String) : JSError
  | error (msg : String) : JSError
deriving Repr, DecidableEq

/-- `error.message`. -/
def JSError.message : JSError → String
  | .typeError m => m
  | .error m => m

/-- The message of the `TypeError` raised by a property access on `null`
(engine-dependent wording, V8-style without the quoted property name). -/
def nullReadMsg : String := "Cannot read properties of null"

mutual
/-- JavaScript string conversion as used by template literals:
`String(v)`.  Arrays convert via `Array.prototype.toString`, i.e.
`join(",")`; plain objects give `"[object Object]"`. -/
def jsToString : Json → String
  | .null => "null"
  | .bool true => "true"
  | .bool false => "false"
  | .num n => toString n
  | .str s => s
  | .arr xs => String.intercalate "," (arrElems xs)
  | .obj _ => "[object Object]"

/-- Element strings for `Array.prototype.join`: `null`/`undefined`
become the empty string, other elements convert with `String(·)`. -/
def arrElems : List Json → List String
  | [] => []
  | .null :: xs => "" :: arrElems xs
  | x :: xs => jsToString x :: arrElems xs
end

/-- `Array.prototype.join(sep)`; a `TypeError` on non-arrays
(`.join is not a function`). -/
def jsJoin (sep : String) : Json → Except JSError String
  | .arr xs => .ok (String.intercalate sep (arrElems xs))
  | _ => .error (.typeError "join is not a function")

/-- `v.hasOwnProperty(f)` for non-null receivers: objects check their own
keys; arrays and strings own `length` and their index keys; other
primitives (boxed) own none of the fields this script asks about. -/
def jsHasOwn : Json → String → Bool
  | .obj kvs, f => kvs.any (fun kv => kv.fst == f)
  | .arr xs, f => f == "length" || (List.range xs.length).any (fun i => f == toString i)
  | .str s, f => f == "length" || (List.range s.length).any (fun i => f == toString i)
  | _, _ => false

/-- Property read `v.f` on a non-null receiver (absent property, i.e.
JavaScript `undefined`, is conflated with `null`, a distinction no claim
observes). -/
def getProp : Json → String → Json
  | .obj kvs, f =>
    match kvs.find? (fun kv => kv.fst == f) with
    | some kv => kv.snd
    | none => Json.null
  | _, _ => Json.null

/-- Property read `v.f` on an arbitrary receiver: a `TypeError` on
`null`, `getProp` otherwise. -/
def getPropEx (v : Json) (f : String) : Except JSError Json :=
  match v with
  | .null => .error (.typeError nullReadMsg)
  | w => .ok (getProp w f)

/-- An observable host side effect performed by the script, in order:
`createObj(kind, props)` (with the host-assigned id), `sendChat(speaker,
message)` and `log(message)`. -/
inductive Effect where
  | createObj (kind : String) (id : String) (props : List (String × Json)) : Effect
  | chat (speaker : String) (message : String) : Effect
  | log (message : String) : Effect

/-- The injected host collaborators (see the module comment). -/
structure Env where
  parse : String → Except String Json
  rowId : Nat → String
  objId : Nat → String

/-- Handler state: the effect trace so far, plus the positions of the two
injected streams (`rid` for `Math.random` draws, `oid` for host ids). -/
structure St where
  effects : List Effect
  rid : Nat
  oid : Nat

/-- Stateful JavaScript computations: an `Except.error` is an uncaught
exception; effects performed before a throw remain in the state. -/
def M (α : Type) : Type := St → Except JSError α × St

instance : Monad M where
  pure a := fun s => (.ok a, s)
  bind x f := fun s =>
    match x s with
    | (.ok a, s1) => f a s1
    | (.error e, s1) => (.error e, s1)

/-- `throw` of a JavaScript exception. -/
def throwJS {α : Type} (e : JSError) : M α := fun s => (.error e, s)

/-- Run an exception-prone but stateless step inside `M`. -/
def liftEx {α : Type} (x : Except JSError α) : M α := fun s => (x, s)

/-- Host `createObj`: appends the effect and returns the host-assigned id. -/
def createObj (env : Env) (kind : String) (props : List (String × Json)) : M String :=
  fun s =>
    let id := env.objId s.oid
    (.ok id, { s with effects := s.effects ++ [.createObj kind id props], oid := s.oid + 1 })

/-- Host `sendChat(speaker, message)`. -/
def sendChat (speaker message : String) : M Unit :=
  fun s => (.ok (), { s with effects := s.effects ++ [.chat speaker message] })

/-- Host `log(message)`. -/
def logHost (message : String) : M Unit :=
  fun s => (.ok (), { s with effects := s.effects ++ [.log message] })

/-- `array.forEach(body)` over an already-known element list (the callback
ignores the index parameter, as the script does). -/
def forEachList (body : Json → M Unit) : List Json → M Unit
  | [] => pure ()
  | x :: xs => do
    body x
    forEachList body xs

/-- `v.forEach(body)`: iterates arrays, `TypeError` on anything else. -/
def jsForEach (body : Json → M Unit) : Json → M Unit
  | .arr xs => forEachList body xs
  | _ => throwJS (.typeError "forEach is not a function")

/-- JavaScript `String.prototype.startsWith` (modelled over the
character list so that concrete instances compute). -/
def jsStartsWith (s pre : String) : Bool := pre.data.isPrefixOf s.data

/-- JavaScript `String.prototype.trim`. -/
def jsTrim (s : String) : String :=
  ⟨((s.data.dropWhile Char.isWhitespace).reverse.dropWhile Char.isWhitespace).reverse⟩

/-- Character-list worker for `replaceFirst`. -/
def replaceFirstList (pat repl : List Char) : List Char → List Char
  | [] => []
  | c :: cs =>
    if pat.isPrefixOf (c :: cs) then repl ++ (c :: cs).drop pat.length
    else c :: replaceFirstList pat repl cs

/-- JavaScript `String.prototype.replace` with a string pattern: replace
the first occurrence of `pat` in `s`. -/
def replaceFirst (s pat repl : String) : String :=
  ⟨replaceFirstList pat.data repl.data s.data⟩

/-- Lines 31–33 of the source, before the parse call:
`content.replace("!create-npc", "").trim()`. -/
def stripCommand (content : String) : String :=
  jsTrim (replaceFirst content "!create-npc" "")

/-- `extractNPCData` (source lines 31–38): strip the command token, parse
the remainder, and re-throw a parse failure as an `Error` wrapping the
decoder's message. -/
def extractNPCData (env : Env) (content : String) : Except JSError Json :=
  match env.parse (stripCommand content) with
  | .ok v => .ok v
  | .error e =>
    .error (.error ("Invalid JSON format. Please check your input. Error: " ++ e))

/-- The required-field list of `validateNPCData` (source lines 41–45). -/
def requiredFields : List String :=
  ["name", "race", "class", "level",
   "strength", "dexterity", "constitution", "intelligence", "wisdom", "charisma",
   "actions", "background", "personality_traits", "equipment", "skills",
   "languages", "appearance"]

/-- `validateNPCData` (source lines 40–47):
`requiredFields.every(field => data.hasOwnProperty(field))`.  On a `null`
receiver the first `hasOwnProperty` call throws a `TypeError`. -/
def validateNPCData (data : Json) : Except JSError Bool :=
  match data with
  | .null => .error (.typeError nullReadMsg)
  | d => .ok (requiredFields.all (fun f => jsHasOwn d f))

/-- `generateRowID` (source lines 110–112): one fresh draw from the
injected `Math.random` stream. -/
def generateRowID (env : Env) : M String :=
  fun s => (.ok (env.rowId s.rid), { s with rid := s.rid + 1 })

/-- One `createObj("attribute", {name, current, characterid})` call. -/
def createAttr (env : Env) (charId : String) (name : String) (current : Json) : M Unit := do
  let _ ← createObj env "attribute"
    [("name", Json.str name), ("current", current), ("characterid", Json.str charId)]
  pure ()

/-- The repeating-attribute inner loop of `addAttributesToCharacter`
(source lines 78–86): for each item, one attribute named
`repeating_<group>_<generateRowID()>_name`. -/
def addRepeating (env : Env) (charId group : String) (items : Json) : M Unit :=
  jsForEach
    (fun item => do
      let rid ← generateRowID env
      createAttr env charId ("repeating_" ++ group ++ "_" ++ rid ++ "_name") item)
    items

/-- `addAttributesToCharacter` (source lines 49–107): nine basic scalar
attributes, the three repeating groups, then `appearance`, `background`
and the `", "`-joined `personality_traits`. -/
def addAttributesToCharacter (env : Env) (charId : String) (data : Json) : M Unit := do
  createAttr env charId "race" (getProp data "race")
  createAttr env charId "class" (getProp data "class")
  createAttr env charId "level" (getProp data "level")
  createAttr env charId "strength" (getProp data "strength")
  createAttr env charId "dexterity" (getProp data "dexterity")
  createAttr env charId "constitution" (getProp data "constitution")
  createAttr env charId "intelligence" (getProp data "intelligence")
  createAttr env charId "wisdom" (getProp data "wisdom")
  createAttr env charId "charisma" (getProp data "charisma")
  addRepeating env charId "equipment" (getProp data "equipment")
  addRepeating env charId "skills" (getProp data "skills")
  addRepeating env charId "languages" (getProp data "languages")
  createAttr env charId "appearance" (getProp data "appearance")
  createAttr env charId "background" (getProp data "background")
  let joined ← liftEx (jsJoin ", " (getProp data "personality_traits"))
  createAttr env charId "personality_traits" (Json.str joined)

/-- `createActionsAbility` (source lines 114–127): per action, two
attribute records, each naming its own fresh `generateRowID()` draw. -/
def createActionsAbility (env : Env) (charId : String) (actions : Json) : M Unit :=
  jsForEach
    (fun action => do
      let rid1 ← generateRowID env
      let nm ← liftEx (getPropEx action "name")
      createAttr env charId ("repeating_npcaction_" ++ rid1 ++ "_name") nm
      let rid2 ← generateRowID env
      let ds ← liftEx (getPropEx action "description")
      createAttr env charId ("repeating_npcaction_" ++ rid2 ++ "_description") ds)
    actions

/-- `createBackgroundAbility` (source lines 129–138): one ability record
whose description is the template-composed background text (note the
template literal stringifies the `personality_traits` array with
`Array.prototype.toString`, i.e. a bare `","` join). -/
def createBackgroundAbility (env : Env) (charId : String) (data : Json) : M Unit := do
  let backgroundText :=
    "Background: " ++ jsToString (getProp data "background") ++ "\n\n" ++
    "Personality Traits: " ++ jsToString (getProp data "personality_traits") ++ "\n\n"
  let _ ← createObj env "ability"
    [("name", Json.str "Background & Personality"),
     ("description", Json.str backgroundText),
     ("characterid", Json.str charId)]
  pure ()

/-- An inbound chat message. -/
structure Msg where
  type : String
  content : String
  playerid : String

/-- The validation-failure whisper (source line 12). -/
def invalidDataMsg : String :=
  "/w gm Error: Invalid NPC data format. Please check all required fields are present."

/-- The body of the `try` block of `handleInput` (source lines 10–24). -/
def tryBlock (env : Env) (msg : Msg) : M Unit := do
  let npcData ← liftEx (extractNPCData env msg.content)
  let valid ← liftEx (validateNPCData npcData)
  if valid then do
    let charId ← createObj env "character"
      [("name", getProp npcData "name"), ("controlledby", Json.str msg.playerid)]
    addAttributesToCharacter env charId npcData
    createActionsAbility env charId (getProp npcData "actions")
    createBackgroundAbility env charId npcData
    sendChat "NPC Creator"
      ("/w gm NPC " ++ jsToString (getProp npcData "name") ++ " has been created!")
  else
    sendChat "NPC Creator" invalidDataMsg

/-- `handleInput` (source lines 6–29): the command matcher, then the `try`
block with its `catch` converting any exception into a whisper plus a log
entry.  The handler itself never lets an exception escape. -/
def handleInput (env : Env) (msg : Msg) (s : St) : St :=
  if msg.type == "api" && jsStartsWith msg.content "!create-npc" then
    match tryBlock env msg s with
    | (.ok _, s1) => s1
    | (.error e, s1) =>
      { s1 with effects := s1.effects ++
          [.chat "NPC Creator" ("/w gm Error creating NPC: " ++ e.message),
           .log ("NPC Creation Error: " ++ e.message)] }
  else s

/-! ### Well-typed descriptors

The spec's Character Descriptor (§3): every required field present with
its documented shape.  `toJson` renders such a descriptor as the parsed
payload object the handler receives. -/

/-- An Action descriptor: `{name, description}`. -/
structure ActionDesc where
  name : String
  description : String

/-- A well-typed Character Descriptor. -/
structure NPCDesc where
  name : String
  race : String
  «class» : String
  level : Int
  strength : Int
  dexterity : Int
  constitution : Int
  intelligence : Int
  wisdom : Int
  charisma : Int
  actions : List ActionDesc
  background : String
  personality_traits : List String
  equipment : List String
  skills : List String
  languages : List String
  appearance : String

/-- The payload object of an Action descriptor. -/
def ActionDesc.toJson (a : ActionDesc) : Json :=
  .obj [("name", .str a.name), ("description", .str a.description)]

/-- The payload object of a Character Descriptor. -/
def NPCDesc.toJson (d : NPCDesc) : Json :=
  .obj
    [("name", .str d.name),
     ("race", .str d.race),
     ("class", .str d.«class»),
     ("level", .num d.level),
     ("strength", .num d.strength),
     ("dexterity", .num d.dexterity),
     ("constitution", .num d.constitution),
     ("intelligence", .num d.intelligence),
     ("wisdom", .num d.wisdom),
     ("charisma", .num d.charisma),
     ("actions", .arr (d.actions.map ActionDesc.toJson)),
     ("background", .str d.background),
     ("personality_traits", .arr (d.personality_traits.map .str)),
     ("equipment", .arr (d.equipment.map .str)),
     ("skills", .arr (d.skills.map .str)),
     ("languages", .arr (d.languages.map .str)),
     ("appearance", .str d.appearance)]

/-! ### Concrete instances used by witnesses and counterexamples -/

/-- The spec's end-to-end example descriptor (§8). -/
def grak : NPCDesc :=
  { name := "Grak", race := "Orc", «class» := "Fighter", level := 3,
    strength := 16, dexterity := 12, constitution := 14, intelligence := 8,
    wisdom := 10, charisma := 9,
    actions := [{ name := "Slam", description := "2d6 bludgeoning" }],
    background := "Former gladiator",
    personality_traits := ["Gruff", "Loyal"],
    equipment := ["Axe", "Shield"], skills := ["Athletics"],
    languages := ["Common", "Orcish"], appearance := "Scarred and massive" }

/-- A concrete environment: the parser always yields `v`, row ids and
object ids are drawn from distinct numbered streams. -/
def seqEnv (v : Json) : Env :=
  { parse := fun _ => .ok v,
    rowId := fun k => "row" ++ toString k,
    objId := fun k => "obj" ++ toString k }

/-- A concrete environment whose `Math.random` stream repeats one value,
as a random source may. -/
def constRowEnv (v : Json) : Env :=
  { parse := fun _ => .ok v,
    rowId := fun _ => "aaaaaaaa",
    objId := fun k => "obj" ++ toString k }

/-- A concrete command message (the payload text is only a key the
injected parser maps to its output value). -/
def grakMsg : Msg := { type := "api", content := "!create-npc grak", playerid := "p1" }

/-- The initial handler state: empty trace, streams at zero. -/
def st0 : St := { effects := [], rid := 0, oid := 0 }

/-! ### Expected effect traces of a successful run

These definitions spell out, record by record, the trace a valid
descriptor produces; the run lemmas below prove the embedded handler
emits exactly them. -/

/-- One expected `createObj("attribute", …)` effect. -/
def attrEffect (env : Env) (o : Nat) (nm : String) (cur : Json) (charId : String) : Effect :=
  .createObj "attribute" (env.objId o)
    [("name", Json.str nm), ("current", cur), ("characterid", Json.str charId)]

/-- The nine basic scalar attribute records (source lines 50–60). -/
def basicAttrEffects (env : Env) (charId : String) (d : NPCDesc) (o : Nat) : List Effect :=
  [attrEffect env o "race" (.str d.race) charId,
   attrEffect env (o+1) "class" (.str d.«class») charId,
   attrEffect env (o+2) "level" (.num d.level) charId,
   attrEffect env (o+3) "strength" (.num d.strength) charId,
   attrEffect env (o+4) "dexterity" (.num d.dexterity) charId,
   attrEffect env (o+5) "constitution" (.num d.constitution) charId,
   attrEffect env (o+6) "intelligence" (.num d.intelligence) charId,
   attrEffect env (o+7) "wisdom" (.num d.wisdom) charId,
   attrEffect env (o+8) "charisma" (.num d.charisma) charId]

/-- The expected records of one repeating group: one per item, each with
its own row id drawn from the stream. -/
def repeatEffects (env : Env) (charId group : String) :
    List Json → Nat → Nat → List Effect
  | [], _, _ => []
  | x :: xs, r, o =>
    attrEffect env o ("repeating_" ++ group ++ "_" ++ env.rowId r ++ "_name") x charId
      :: repeatEffects env charId group xs (r+1) (o+1)

/-- The `appearance`, `background` and joined `personality_traits`
records (source lines 88–106). -/
def tailAttrEffects (env : Env) (charId : String) (d : NPCDesc) (o : Nat) : List Effect :=
  [attrEffect env o "appearance" (.str d.appearance) charId,
   attrEffect env (o+1) "background" (.str d.background) charId,
   attrEffect env (o+2) "personality_traits"
     (.str (String.intercalate ", " d.personality_traits)) charId]

/-- The expected records of the action loop: two records per action,
each consuming its own draw from the row-id stream. -/
def actionEffects (env : Env) (charId : String) :
    List ActionDesc → Nat → Nat → List Effect
  | [], _, _ => []
  | a :: as, r, o =>
    attrEffect env o ("repeating_npcaction_" ++ env.rowId r ++ "_name")
        (.str a.name) charId
      :: attrEffect env (o+1) ("repeating_npcaction_" ++ env.rowId (r+1) ++ "_description")
          (.str a.description) charId
      :: actionEffects env charId as (r+2) (o+2)

/-- The composed background text of the ability record: note the bare
`","` join of the traits (template-literal array stringification). -/
def backgroundText (d : NPCDesc) : String :=
  "Background: " ++ d.background ++ "\n\n" ++
  "Personality Traits: " ++ String.intercalate "," d.personality_traits ++ "\n\n"

/-- The expected ability record (source lines 133–137). -/
def abilityEffect (env : Env) (o : Nat) (charId : String) (d : NPCDesc) : Effect :=
  .createObj "ability" (env.objId o)
    [("name", Json.str "Background & Personality"),
     ("description", Json.str (backgroundText d)),
     ("characterid", Json.str charId)]

/-- All scalar and repeating-list attribute records of one run, in source
order: nine basic scalars, the three repeating groups, then the three
trailing scalars. -/
def scalarListEffects (env : Env) (charId : String) (d : NPCDesc) (r o : Nat) : List Effect :=
  basicAttrEffects env charId d o
    ++ repeatEffects env charId "equipment" (d.equipment.map .str) r (o+9)
    ++ repeatEffects env charId "skills" (d.skills.map .str)
        (r + d.equipment.length) (o + 9 + d.equipment.length)
    ++ repeatEffects env charId "languages" (d.languages.map .str)
        (r + d.equipment.length + d.skills.length)
        (o + 9 + d.equipment.length + d.skills.length)
    ++ tailAttrEffects env charId d
        (o + 9 + d.equipment.length + d.skills.length + d.languages.length)

/-- Row-id draws one valid run consumes. -/
def rowCount (d : NPCDesc) : Nat :=
  d.equipment.length + d.skills.length + d.languages.length + 2 * d.actions.length

/-- Objects one valid run creates (1 character, 12 scalar attributes,
one attribute per list item, two per action, 1 ability). -/
def objCount (d : NPCDesc) : Nat :=
  14 + d.equipment.length + d.skills.length + d.languages.length + 2 * d.actions.length

/-- The full expected effect trace of one valid run. -/
def validTrace (env : Env) (msg : Msg) (d : NPCDesc) (r o : Nat) : List Effect :=
  Effect.createObj "character" (env.objId o)
      [("name", .str d.name), ("controlledby", .str msg.playerid)]
    :: (scalarListEffects env (env.objId o) d r (o+1)
      ++ actionEffects env (env.objId o) d.actions
          (r + d.equipment.length + d.skills.length + d.languages.length)
          (o + 13 + d.equipment.length + d.skills.length + d.languages.length)
      ++ [abilityEffect env
            (o + 13 + d.equipment.length + d.skills.length + d.languages.length
               + 2 * d.actions.length)
            (env.objId o) d,
          .chat "NPC Creator" ("/w gm NPC " ++ d.name ++ " has been created!")])

/-- A message the matcher accepts. -/
def addressed (msg : Msg) : Bool :=
  msg.type == "api" && jsStartsWith msg.content "!create-npc"

/-! ### Classifying trace effects -/

/-- Is the effect a `createObj` of the given record kind? -/
def isCreate (kind : String) : Effect → Bool
  | .createObj k _ _ => k == kind
  | _ => false

/-- Is the effect a chat notification? -/
def isChat : Effect → Bool
  | .chat _ _ => true
  | _ => false

/-- Is the effect a log entry? -/
def isLog : Effect → Bool
  | .log _ => true
  | _ => false

/-- The `name` property a `createObj` effect carries (empty otherwise). -/
def effectName : Effect → String
  | .createObj _ _ props =>
    (match props.find? (fun p => p.fst == "name") with
     | some p => jsToString p.snd
     | none => "")
  | _ => ""

/-- The `description` property a `createObj` effect carries. -/
def effectDescription : Effect → String
  | .createObj _ _ props =>
    (match props.find? (fun p => p.fst == "description") with
     | some p => jsToString p.snd
     | none => "")
  | _ => ""

/-- An action Attribute Record: an attribute under the
`repeating_npcaction` field group. -/
def isActionAttr (e : Effect) : Bool :=
  isCreate "attribute" e && jsStartsWith (effectName e) "repeating_npcaction_"

/-- A scalar or repeating-list Attribute Record: any attribute record not
under the actions field group. -/
def isScalarListAttr (e : Effect) : Bool :=
  isCreate "attribute" e && !jsStartsWith (effectName e) "repeating_npcaction_"

/-- If the effect is a chat message, its text is a `/w gm ` whisper. -/
def whisperEffect (e : Effect) : Prop :=
  ∀ who m, e = .chat who m → ∃ t, m = "/w gm " ++ t

/-- The computation only adds effects that satisfy `p` (existing effects
are untouched; membership suffices for the claims). -/
def EmitsOnly {α : Type} (x : M α) (p : Effect → Prop) : Prop :=
  ∀ s, ∀ e ∈ (x s).2.effects, e ∈ s.effects ∨ p e

/-- The row-id draws one run consumes: positions `r, r+1, …, r+count-1`
of the injected stream. -/
def usedRowIds (env : Env) (r count : Nat) : List String :=
  (List.range count).map (fun k => env.rowId (r + k))

/-- The Grak example with a second action appended, to exhibit ordering. -/
def grak2 : NPCDesc :=
  { grak with actions := [{ name := "Slam", description := "2d6 bludgeoning" },
                          { name := "Bite", description := "1d8 piercing" }] }

/-- The Grak payload with the `wisdom` field removed (the spec's
missing-field example). -/
def noWisdomJson : Json :=
  .obj
    [("name", .str "Grak"), ("race", .str "Orc"), ("class", .str "Fighter"),
     ("level", .num 3), ("strength", .num 16), ("dexterity", .num 12),
     ("constitution", .num 14), ("intelligence", .num 8), ("charisma", .num 9),
     ("actions", .arr [.obj [("name", .str "Slam"), ("description", .str "2d6 bludgeoning")]]),
     ("background", .str "Former gladiator"),
     ("personality_traits", .arr [.str "Gruff", .str "Loyal"]),
     ("equipment", .arr [.str "Axe", .str "Shield"]),
     ("skills", .arr [.str "Athletics"]),
     ("languages", .arr [.str "Common", .str "Orcish"]),
     ("appearance", .str "Scarred and massive")]

/-- A descriptor whose every required field is present but falsy
(zero, empty string, empty list). -/
def falsyDescJson : Json :=
  .obj
    [("name", .str ""), ("race", .str ""), ("class", .str ""), ("level", .num 0),
     ("strength", .num 0), ("dexterity", .num 0), ("constitution", .num 0),
     ("intelligence", .num 0), ("wisdom", .num 0), ("charisma", .num 0),
     ("actions", .arr []), ("background", .str ""), ("personality_traits", .arr []),
     ("equipment", .arr []), ("skills", .arr []), ("languages", .arr []),
     ("appearance", .str "")]

/-- An environment whose parser always fails with a fixed decoder message. -/
def errEnv : Env :=
  { parse := fun _ => .error "Unexpected token",
    rowId := fun k => "row" ++ toString k,
    objId := fun k => "obj" ++ toString k }

/-- An environment whose parser yields JavaScript `null` (as
`JSON.parse("null")` does). -/
def nullEnv : Env :=
  { parse := fun _ => .ok .null,
    rowId := fun k => "row" ++ toString k,
    objId := fun k => "obj" ++ toString k }

/-- An environment with a provably injective row-id stream. -/
def injEnv (v : Json) : Env :=
  { parse := fun _ => .ok v,
    rowId := fun k => ⟨List.replicate k (Char.ofNat 97)⟩,
    objId := fun k => "obj" ++ toString k }

/-- The command message whose payload text is `null`. -/
def nullMsg : Msg := { type := "api", content := "!create-npc null", playerid := "p1" }

/-- A chat message on the wrong channel. -/
def chatMsg : Msg := { type := "chat", content := "!create-npc grak", playerid := "p1" }

/-- An api message that is not the create-npc command. -/
def otherApiMsg : Msg := { type := "api", content := "!roll 2d6", playerid := "p1" }

/-! ### Run lemmas: how each embedded function transforms the state -/

theorem bind_apply {α β : Type} (x : M α) (f : α → M β) (s : St) :
    (x >>= f) s = match x s with
      | (.ok a, s1) => f a s1
      | (.error e, s1) => (.error e, s1) := rfl

theorem pure_apply {α : Type} (a : α) (s : St) : (pure a : M α) s = (.ok a, s) := rfl

theorem liftEx_apply {α : Type} (x : Except JSError α) (s : St) : liftEx x s = (x, s) := rfl

theorem throwJS_apply {α : Type} (e : JSError) (s : St) :
    (throwJS e : M α) s = (.error e, s) := rfl

theorem createObj_run (env : Env) (kind : String) (props : List (String × Json)) (s : St) :
    createObj env kind props s =
      (.ok (env.objId s.oid),
       { s with
          effects := s.effects ++ [.createObj kind (env.objId s.oid) props]
          oid := s.oid + 1 }) := rfl

theorem sendChat_run (who m : String) (s : St) :
    sendChat who m s = (.ok (), { s with effects := s.effects ++ [.chat who m] }) := rfl

theorem logHost_run (m : String) (s : St) :
    logHost m s = (.ok (), { s with effects := s.effects ++ [.log m] }) := rfl

theorem generateRowID_run (env : Env) (s : St) :
    generateRowID env s = (.ok (env.rowId s.rid), { s with rid := s.rid + 1 }) := rfl

theorem createAttr_run (env : Env) (charId nm : String) (cur : Json) (s : St) :
    createAttr env charId nm cur s =
      (.ok (),
       { s with
          effects := s.effects ++ [attrEffect env s.oid nm cur charId]
          oid := s.oid + 1 }) := rfl

theorem arrElems_map_str (xs : List String) : arrElems (xs.map Json.str) = xs := by
  induction xs with
  | nil => rfl
  | cons x rest ih => simp [arrElems, jsToString, ih]

theorem jsToString_str_arr (xs : List String) :
    jsToString (.arr (xs.map Json.str)) = String.intercalate "," xs := by
  simp [jsToString, arrElems_map_str]

theorem jsJoin_str_arr (sep : String) (xs : List String) :
    jsJoin sep (.arr (xs.map Json.str)) = .ok (String.intercalate sep xs) := by
  simp [jsJoin, arrElems_map_str]

theorem validate_toJson (d : NPCDesc) : validateNPCData d.toJson = .ok true := by
  simp [validateNPCData, NPCDesc.toJson, requiredFields, jsHasOwn]

theorem forEachList_repeat_run (env : Env) (charId group : String) (xs : List Json) (s : St) :
    forEachList
      (fun item => do
        let rid ← generateRowID env
        createAttr env charId ("repeating_" ++ group ++ "_" ++ rid ++ "_name") item)
      xs s =
      (.ok (),
       { s with
          effects := s.effects ++ repeatEffects env charId group xs s.rid s.oid
          rid := s.rid + xs.length
          oid := s.oid + xs.length }) := by
  induction xs generalizing s with
  | nil => simp [forEachList, pure_apply, repeatEffects]
  | cons x rest ih =>
    simp [forEachList, bind_apply, generateRowID_run, createAttr_run, ih, repeatEffects,
      Nat.add_comm, Nat.add_left_comm, Nat.add_assoc]

theorem addRepeating_run (env : Env) (charId group : String) (xs : List Json) (s : St) :
    addRepeating env charId group (.arr xs) s =
      (.ok (),
       { s with
          effects := s.effects ++ repeatEffects env charId group xs s.rid s.oid
          rid := s.rid + xs.length
          oid := s.oid + xs.length }) := by
  simp [addRepeating, jsForEach, forEachList_repeat_run]

theorem forEachList_action_run (env : Env) (charId : String) (as : List ActionDesc) (s : St) :
    forEachList
      (fun action => do
        let rid1 ← generateRowID env
        let nm ← liftEx (getPropEx action "name")
        createAttr env charId ("repeating_npcaction_" ++ rid1 ++ "_name") nm
        let rid2 ← generateRowID env
        let ds ← liftEx (getPropEx action "description")
        createAttr env charId ("repeating_npcaction_" ++ rid2 ++ "_description") ds)
      (as.map ActionDesc.toJson) s =
      (.ok (),
       { s with
          effects := s.effects ++ actionEffects env charId as s.rid s.oid
          rid := s.rid + 2 * as.length
          oid := s.oid + 2 * as.length }) := by
  induction as generalizing s with
  | nil => simp [forEachList, pure_apply, actionEffects]
  | cons a rest ih =>
    have h1 : getPropEx (ActionDesc.toJson a) "name" = .ok (.str a.name) := by
      simp [getPropEx, getProp, ActionDesc.toJson]
    have h2 : getPropEx (ActionDesc.toJson a) "description" = .ok (.str a.description) := by
      simp [getPropEx, getProp, ActionDesc.toJson]
    simp [forEachList, bind_apply, liftEx_apply, generateRowID_run, createAttr_run,
      h1, h2, ih, actionEffects, Nat.mul_add, Nat.add_comm, Nat.add_left_comm, Nat.add_assoc]

theorem createActionsAbility_run (env : Env) (charId : String) (d : NPCDesc) (s : St) :
    createActionsAbility env charId (getProp d.toJson "actions") s =
      (.ok (),
       { s with
          effects := s.effects ++ actionEffects env charId d.actions s.rid s.oid
          rid := s.rid + 2 * d.actions.length
          oid := s.oid + 2 * d.actions.length }) := by
  have h : getProp d.toJson "actions" = .arr (d.actions.map ActionDesc.toJson) := by
    simp [getProp, NPCDesc.toJson]
  rw [h]
  simp [createActionsAbility, jsForEach, forEachList_action_run]

theorem addAttributesToCharacter_run (env : Env) (charId : String) (d : NPCDesc) (s : St) :
    addAttributesToCharacter env charId d.toJson s =
      (.ok (),
       { s with
          effects := s.effects ++ scalarListEffects env charId d s.rid s.oid
          rid := s.rid + (d.equipment.length + d.skills.length + d.languages.length)
          oid := s.oid + (12 + d.equipment.length + d.skills.length + d.languages.length) }) := by
  simp [addAttributesToCharacter, bind_apply, createAttr_run, addRepeating_run, liftEx_apply,
    getProp, NPCDesc.toJson, jsJoin_str_arr, scalarListEffects, basicAttrEffects,
    tailAttrEffects, List.append_assoc, Nat.add_comm, Nat.add_left_comm, Nat.add_assoc]

theorem createBackgroundAbility_run (env : Env) (charId : String) (d : NPCDesc) (s : St) :
    createBackgroundAbility env charId d.toJson s =
      (.ok (),
       { s with
          effects := s.effects ++ [abilityEffect env s.oid charId d]
          oid := s.oid + 1 }) := by
  simp [createBackgroundAbility, bind_apply, createObj_run, pure_apply, getProp,
    NPCDesc.toJson, jsToString, arrElems_map_str, abilityEffect, backgroundText]

theorem tryBlock_valid_run (env : Env) (msg : Msg) (d : NPCDesc) (s : St)
    (hp : env.parse (stripCommand msg.content) = .ok d.toJson) :
    tryBlock env msg s =
      (.ok (),
       { s with
          effects := s.effects ++ validTrace env msg d s.rid s.oid
          rid := s.rid + rowCount d
          oid := s.oid + objCount d }) := by
  have hname : getProp d.toJson "name" = .str d.name := by
    simp [getProp, NPCDesc.toJson]
  simp [tryBlock, bind_apply, liftEx_apply, extractNPCData, hp, validate_toJson,
    createObj_run, addAttributesToCharacter_run, createActionsAbility_run,
    createBackgroundAbility_run, sendChat_run, hname, jsToString,
    validTrace, rowCount, objCount, List.append_assoc,
    Nat.add_comm, Nat.add_left_comm, Nat.add_assoc]
  omega

theorem handleInput_skip (env : Env) (msg : Msg) (s : St) (hm : addressed msg = false) :
    handleInput env msg s = s := by
  simp only [addressed] at hm
  simp [handleInput, hm]

theorem handleInput_ok (env : Env) (msg : Msg) (s s1 : St) (a : Unit)
    (hm : addressed msg = true) (h : tryBlock env msg s = (.ok a, s1)) :
    handleInput env msg s = s1 := by
  simp only [addressed] at hm
  simp [handleInput, hm, h]

theorem handleInput_catch (env : Env) (msg : Msg) (s s1 : St) (e : JSError)
    (hm : addressed msg = true) (h : tryBlock env msg s = (.error e, s1)) :
    handleInput env msg s =
      { s1 with
         effects := s1.effects ++
           [.chat "NPC Creator" ("/w gm Error creating NPC: " ++ e.message),
            .log ("NPC Creation Error: " ++ e.message)] } := by
  simp only [addressed] at hm
  simp [handleInput, hm, h]

theorem handleInput_valid_run (env : Env) (msg : Msg) (d : NPCDesc) (s : St)
    (hm : addressed msg = true)
    (hp : env.parse (stripCommand msg.content) = .ok d.toJson) :
    handleInput env msg s =
      { s with
         effects := s.effects ++ validTrace env msg d s.rid s.oid
         rid := s.rid + rowCount d
         oid := s.oid + objCount d } := by
  exact handleInput_ok env msg s _ () hm (tryBlock_valid_run env msg d s hp)

theorem tryBlock_parse_error (env : Env) (msg : Msg) (s : St) (e : String)
    (hp : env.parse (stripCommand msg.content) = .error e) :
    tryBlock env msg s =
      (.error (.error ("Invalid JSON format. Please check your input. Error: " ++ e)), s) := by
  simp [tryBlock, bind_apply, liftEx_apply, extractNPCData, hp]

theorem tryBlock_invalid (env : Env) (msg : Msg) (s : St) (v : Json)
    (hp : env.parse (stripCommand msg.content) = .ok v) (hnn : v ≠ .null)
    (hval : requiredFields.all (fun f => jsHasOwn v f) = false) :
    tryBlock env msg s =
      (.ok (), { s with effects := s.effects ++ [.chat "NPC Creator" invalidDataMsg] }) := by
  have hv : validateNPCData v = .ok false := by
    cases v with
    | null => exact absurd rfl hnn
    | _ => simpa [validateNPCData] using hval
  simp [tryBlock, bind_apply, liftEx_apply, extractNPCData, hp, hv, sendChat_run]

theorem tryBlock_null (env : Env) (msg : Msg) (s : St)
    (hp : env.parse (stripCommand msg.content) = .ok .null) :
    tryBlock env msg s = (.error (.typeError nullReadMsg), s) := by
  simp [tryBlock, bind_apply, liftEx_apply, extractNPCData, hp, validateNPCData]

theorem repeatEffects_countP_scalar (env : Env) (cid g : String)
    (hg : ∀ x, jsStartsWith ("repeating_" ++ g ++ "_" ++ x ++ "_name")
            "repeating_npcaction_" = false)
    (xs : List Json) (r o : Nat) :
    (repeatEffects env cid g xs r o).countP isScalarListAttr = xs.length := by
  induction xs generalizing r o with
  | nil => simp [repeatEffects]
  | cons x rest ih =>
    simp [repeatEffects, List.countP_cons, isScalarListAttr, isCreate, attrEffect,
      effectName, jsToString, hg, ih]

theorem repeatEffects_countP_action (env : Env) (cid g : String)
    (hg : ∀ x, jsStartsWith ("repeating_" ++ g ++ "_" ++ x ++ "_name")
            "repeating_npcaction_" = false)
    (xs : List Json) (r o : Nat) :
    (repeatEffects env cid g xs r o).countP isActionAttr = 0 := by
  induction xs generalizing r o with
  | nil => simp [repeatEffects]
  | cons x rest ih =>
    simp [repeatEffects, List.countP_cons, isActionAttr, isCreate, attrEffect,
      effectName, jsToString, hg, ih]

theorem repeatEffects_countP_kind (env : Env) (cid g k : String)
    (hk : ("attribute" == k) = false) (xs : List Json) (r o : Nat) :
    (repeatEffects env cid g xs r o).countP (isCreate k) = 0 := by
  induction xs generalizing r o with
  | nil => simp [repeatEffects]
  | cons x rest ih =>
    simp [repeatEffects, List.countP_cons, isCreate, attrEffect, hk, ih]

theorem actionEffects_countP_action (env : Env) (cid : String)
    (as : List ActionDesc) (r o : Nat) :
    (actionEffects env cid as r o).countP isActionAttr = 2 * as.length := by
  induction as generalizing r o with
  | nil => simp [actionEffects]
  | cons a rest ih =>
    simp [actionEffects, List.countP_cons, isActionAttr, isCreate, attrEffect,
      effectName, jsToString, jsStartsWith, String.data_append, List.isPrefixOf, ih]
    omega

theorem actionEffects_countP_scalar (env : Env) (cid : String)
    (as : List ActionDesc) (r o : Nat) :
    (actionEffects env cid as r o).countP isScalarListAttr = 0 := by
  induction as generalizing r o with
  | nil => simp [actionEffects]
  | cons a rest ih =>
    simp [actionEffects, List.countP_cons, isScalarListAttr, isCreate, attrEffect,
      effectName, jsToString, jsStartsWith, String.data_append, List.isPrefixOf, ih]

theorem actionEffects_countP_kind (env : Env) (cid k : String)
    (hk : ("attribute" == k) = false) (as : List ActionDesc) (r o : Nat) :
    (actionEffects env cid as r o).countP (isCreate k) = 0 := by
  induction as generalizing r o with
  | nil => simp [actionEffects]
  | cons a rest ih =>
    simp [actionEffects, List.countP_cons, isCreate, attrEffect, hk, ih]

theorem isCreate_attrEffect (env : Env) (o : Nat) (nm : String) (cur : Json)
    (cid k : String) : isCreate k (attrEffect env o nm cur cid) = ("attribute" == k) := rfl

theorem effectName_attrEffect (env : Env) (o : Nat) (nm : String) (cur : Json)
    (cid : String) : effectName (attrEffect env o nm cur cid) = nm := by
  simp [effectName, attrEffect, jsToString]

theorem isScalarListAttr_attrEffect (env : Env) (o : Nat) (nm : String) (cur : Json)
    (cid : String) :
    isScalarListAttr (attrEffect env o nm cur cid)
      = !jsStartsWith nm "repeating_npcaction_" := by
  simp [isScalarListAttr, isCreate_attrEffect, effectName_attrEffect]

theorem isActionAttr_attrEffect (env : Env) (o : Nat) (nm : String) (cur : Json)
    (cid : String) :
    isActionAttr (attrEffect env o nm cur cid)
      = jsStartsWith nm "repeating_npcaction_" := by
  simp [isActionAttr, isCreate_attrEffect, effectName_attrEffect]

/-- The record-kind counts of one valid run's trace: exactly one
character record, `12 + N + M + K` scalar/list attribute records,
`2 × A` action attribute records, and one ability record. -/
theorem validTrace_counts (env : Env) (msg : Msg) (d : NPCDesc) (r o : Nat) :
    (validTrace env msg d r o).countP (isCreate "character") = 1 ∧
    (validTrace env msg d r o).countP isScalarListAttr
      = 12 + (d.equipment.length + d.skills.length + d.languages.length) ∧
    (validTrace env msg d r o).countP isActionAttr = 2 * d.actions.length ∧
    (validTrace env msg d r o).countP (isCreate "ability") = 1 := by
  have hgE : ∀ x, jsStartsWith ("repeating_" ++ "equipment" ++ "_" ++ x ++ "_name")
      "repeating_npcaction_" = false := by
    intro x; simp [jsStartsWith, String.data_append, List.isPrefixOf]
  have hgS : ∀ x, jsStartsWith ("repeating_" ++ "skills" ++ "_" ++ x ++ "_name")
      "repeating_npcaction_" = false := by
    intro x; simp [jsStartsWith, String.data_append, List.isPrefixOf]
  have hgL : ∀ x, jsStartsWith ("repeating_" ++ "languages" ++ "_" ++ x ++ "_name")
      "repeating_npcaction_" = false := by
    intro x; simp [jsStartsWith, String.data_append, List.isPrefixOf]
  refine ⟨?_, ?_, ?_, ?_⟩
  · simp [validTrace, scalarListEffects, basicAttrEffects, tailAttrEffects,
      List.countP_append, List.countP_cons, isCreate_attrEffect,
      repeatEffects_countP_kind env _ _ "character" rfl,
      actionEffects_countP_kind env _ "character" rfl,
      isCreate, abilityEffect, attrEffect]
  · simp [validTrace, scalarListEffects, basicAttrEffects, tailAttrEffects,
      List.countP_append, List.countP_cons, isScalarListAttr_attrEffect,
      repeatEffects_countP_scalar env _ "equipment" hgE,
      repeatEffects_countP_scalar env _ "skills" hgS,
      repeatEffects_countP_scalar env _ "languages" hgL,
      actionEffects_countP_scalar,
      isScalarListAttr, isCreate, abilityEffect, attrEffect, effectName, jsToString,
      jsStartsWith, String.data_append, List.isPrefixOf]
    omega
  · simp [validTrace, scalarListEffects, basicAttrEffects, tailAttrEffects,
      List.countP_append, List.countP_cons, isActionAttr_attrEffect,
      repeatEffects_countP_action env _ "equipment" hgE,
      repeatEffects_countP_action env _ "skills" hgS,
      repeatEffects_countP_action env _ "languages" hgL,
      actionEffects_countP_action,
      isActionAttr, isCreate, abilityEffect, attrEffect, effectName, jsToString,
      jsStartsWith, String.data_append, List.isPrefixOf]
  · simp [validTrace, scalarListEffects, basicAttrEffects, tailAttrEffects,
      List.countP_append, List.countP_cons, isCreate_attrEffect,
      repeatEffects_countP_kind env _ _ "ability" rfl,
      actionEffects_countP_kind env _ "ability" rfl,
      isCreate, abilityEffect, attrEffect]

/-! ### Every chat message the handler emits is a whisper -/

theorem emitsOnly_pure {α : Type} (a : α) (p : Effect → Prop) :
    EmitsOnly (pure a : M α) p := by
  intro s e he
  exact Or.inl he

theorem emitsOnly_liftEx {α : Type} (x : Except JSError α) (p : Effect → Prop) :
    EmitsOnly (liftEx x) p := by
  intro s e he
  exact Or.inl he

theorem emitsOnly_throwJS {α : Type} (er : JSError) (p : Effect → Prop) :
    EmitsOnly (throwJS er : M α) p := by
  intro s e he
  exact Or.inl he

theorem emitsOnly_bind {α β : Type} (x : M α) (f : α → M β) (p : Effect → Prop)
    (hx : EmitsOnly x p) (hf : ∀ a, EmitsOnly (f a) p) :
    EmitsOnly (x >>= f) p := by
  intro s e he
  rw [bind_apply] at he
  cases hxs : x s with
  | mk res s1 =>
    cases res with
    | ok a =>
      rw [hxs] at he
      rcases hf a s1 e he with h1 | h2
      · have := hx s e (by rw [hxs]; exact h1)
        exact this
      · exact Or.inr h2
    | error er =>
      rw [hxs] at he
      exact hx s e (by rw [hxs]; exact he)

theorem emitsOnly_createObj (env : Env) (kind : String) (props : List (String × Json))
    (p : Effect → Prop) (h : ∀ id, p (.createObj kind id props)) :
    EmitsOnly (createObj env kind props) p := by
  intro s e he
  rw [createObj_run] at he
  simp only [List.mem_append, List.mem_singleton] at he
  rcases he with h1 | h2
  · exact Or.inl h1
  · exact Or.inr (h2 ▸ h (env.objId s.oid))

theorem emitsOnly_sendChat (who m : String) (p : Effect → Prop) (h : p (.chat who m)) :
    EmitsOnly (sendChat who m) p := by
  intro s e he
  rw [sendChat_run] at he
  simp only [List.mem_append, List.mem_singleton] at he
  rcases he with h1 | h2
  · exact Or.inl h1
  · exact Or.inr (h2 ▸ h)

theorem emitsOnly_generateRowID (env : Env) (p : Effect → Prop) :
    EmitsOnly (generateRowID env) p := by
  intro s e he
  exact Or.inl he

theorem emitsOnly_createAttr (env : Env) (charId nm : String) (cur : Json)
    (p : Effect → Prop) (h : ∀ id, p (.createObj "attribute" id
      [("name", Json.str nm), ("current", cur), ("characterid", Json.str charId)])) :
    EmitsOnly (createAttr env charId nm cur) p := by
  unfold createAttr
  exact emitsOnly_bind _ _ p (emitsOnly_createObj env _ _ p h) (fun a => emitsOnly_pure a p)

theorem emitsOnly_forEachList (body : Json → M Unit) (p : Effect → Prop)
    (hb : ∀ x, EmitsOnly (body x) p) (xs : List Json) :
    EmitsOnly (forEachList body xs) p := by
  induction xs with
  | nil => exact emitsOnly_pure () p
  | cons x rest ih =>
    unfold forEachList
    exact emitsOnly_bind _ _ p (hb x) (fun _ => ih)

theorem emitsOnly_jsForEach (body : Json → M Unit) (p : Effect → Prop)
    (hb : ∀ x, EmitsOnly (body x) p) (v : Json) :
    EmitsOnly (jsForEach body v) p := by
  cases v with
  | arr xs => exact emitsOnly_forEachList body p hb xs
  | _ => first
    | exact emitsOnly_throwJS _ p

/-- Every effect of the script's record-creating phase is a non-chat
effect, hence vacuously a whisper. -/
theorem whisper_addRepeating (env : Env) (charId g : String) (items : Json) :
    EmitsOnly (addRepeating env charId g items) whisperEffect := by
  unfold addRepeating
  refine emitsOnly_jsForEach _ _ (fun x => ?_) items
  refine emitsOnly_bind _ _ _ (emitsOnly_generateRowID env _) (fun rid => ?_)
  refine emitsOnly_createAttr env _ _ _ _ (fun id => ?_)
  intro who m h
  cases h

theorem whisper_addAttributes (env : Env) (charId : String) (data : Json) :
    EmitsOnly (addAttributesToCharacter env charId data) whisperEffect := by
  unfold addAttributesToCharacter
  have hattr : ∀ nm cur, EmitsOnly (createAttr env charId nm cur) whisperEffect := by
    intro nm cur
    refine emitsOnly_createAttr env _ _ _ _ (fun id => ?_)
    intro who m h
    cases h
  refine emitsOnly_bind _ _ _ (hattr _ _) (fun _ => ?_)
  refine emitsOnly_bind _ _ _ (hattr _ _) (fun _ => ?_)
  refine emitsOnly_bind _ _ _ (hattr _ _) (fun _ => ?_)
  refine emitsOnly_bind _ _ _ (hattr _ _) (fun _ => ?_)
  refine emitsOnly_bind _ _ _ (hattr _ _) (fun _ => ?_)
  refine emitsOnly_bind _ _ _ (hattr _ _) (fun _ => ?_)
  refine emitsOnly_bind _ _ _ (hattr _ _) (fun _ => ?_)
  refine emitsOnly_bind _ _ _ (hattr _ _) (fun _ => ?_)
  refine emitsOnly_bind _ _ _ (hattr _ _) (fun _ => ?_)
  refine emitsOnly_bind _ _ _ (whisper_addRepeating env charId _ _) (fun _ => ?_)
  refine emitsOnly_bind _ _ _ (whisper_addRepeating env charId _ _) (fun _ => ?_)
  refine emitsOnly_bind _ _ _ (whisper_addRepeating env charId _ _) (fun _ => ?_)
  refine emitsOnly_bind _ _ _ (hattr _ _) (fun _ => ?_)
  refine emitsOnly_bind _ _ _ (hattr _ _) (fun _ => ?_)
  refine emitsOnly_bind _ _ _ (emitsOnly_liftEx _ _) (fun joined => hattr _ _)

theorem whisper_createActions (env : Env) (charId : String) (actions : Json) :
    EmitsOnly (createActionsAbility env charId actions) whisperEffect := by
  unfold createActionsAbility
  refine emitsOnly_jsForEach _ _ (fun x => ?_) actions
  have hattr : ∀ nm cur, EmitsOnly (createAttr env charId nm cur) whisperEffect := by
    intro nm cur
    refine emitsOnly_createAttr env _ _ _ _ (fun id => ?_)
    intro who m h
    cases h
  refine emitsOnly_bind _ _ _ (emitsOnly_generateRowID env _) (fun rid1 => ?_)
  refine emitsOnly_bind _ _ _ (emitsOnly_liftEx _ _) (fun nm => ?_)
  refine emitsOnly_bind _ _ _ (hattr _ _) (fun _ => ?_)
  refine emitsOnly_bind _ _ _ (emitsOnly_generateRowID env _) (fun rid2 => ?_)
  refine emitsOnly_bind _ _ _ (emitsOnly_liftEx _ _) (fun ds => hattr _ _)

theorem whisper_createBackground (env : Env) (charId : String) (data : Json) :
    EmitsOnly (createBackgroundAbility env charId data) whisperEffect := by
  unfold createBackgroundAbility
  refine emitsOnly_bind _ _ _ (emitsOnly_createObj env _ _ _ (fun id => ?_))
    (fun _ => emitsOnly_pure _ _)
  intro who m h
  cases h

theorem whisper_tryBlock (env : Env) (msg : Msg) :
    EmitsOnly (tryBlock env msg) whisperEffect := by
  unfold tryBlock
  refine emitsOnly_bind _ _ _ (emitsOnly_liftEx _ _) (fun npcData => ?_)
  refine emitsOnly_bind _ _ _ (emitsOnly_liftEx _ _) (fun valid => ?_)
  cases valid with
  | true =>
    simp only [if_true]
    refine emitsOnly_bind _ _ _ (emitsOnly_createObj env _ _ _ (fun id => ?_)) (fun cid => ?_)
    · intro who m h
      cases h
    refine emitsOnly_bind _ _ _ (whisper_addAttributes env cid npcData) (fun _ => ?_)
    refine emitsOnly_bind _ _ _ (whisper_createActions env cid _) (fun _ => ?_)
    refine emitsOnly_bind _ _ _ (whisper_createBackground env cid npcData) (fun _ => ?_)
    refine emitsOnly_sendChat _ _ _ ?_
    intro who m h
    cases h
    exact ⟨("NPC " ++ jsToString (getProp npcData "name")) ++ " has been created!",
      by rw [show ("/w gm NPC " : String) = "/w gm " ++ "NPC " from by decide,
             String.append_assoc "/w gm " "NPC " (jsToString (getProp npcData "name")),
             String.append_assoc]⟩
  | false =>
    simp only [Bool.false_eq_true, if_false]
    refine emitsOnly_sendChat _ _ _ ?_
    intro who m h
    cases h
    exact ⟨"Error: Invalid NPC data format. Please check all required fields are present.",
      by decide⟩

/-- Whisper property of the whole handler: every chat effect the handler
adds to the trace is a `/w gm ` whisper (nothing is ever broadcast). -/
theorem whisper_handleInput (env : Env) (msg : Msg) (s : St) :
    ∀ e ∈ (handleInput env msg s).effects, e ∈ s.effects ∨ whisperEffect e := by
  intro e he
  unfold handleInput at he
  by_cases hm : (msg.type == "api" && jsStartsWith msg.content "!create-npc") = true
  · rw [if_pos hm] at he
    cases htb : tryBlock env msg s with
    | mk res s1 =>
      cases res with
      | ok a =>
        rw [htb] at he
        have := whisper_tryBlock env msg s e
        rw [htb] at this
        exact this he
      | error er =>
        rw [htb] at he
        simp only [List.mem_append, List.mem_cons, List.mem_singleton,
          List.not_mem_nil, or_false] at he
        rcases he with h1 | h2 | h3
        · have := whisper_tryBlock env msg s e
          rw [htb] at this
          exact this h1
        · refine Or.inr ?_
          intro who m h
          rw [h2] at h
          cases h
          exact ⟨"Error creating NPC: " ++ er.message,
            by rw [show ("/w gm Error creating NPC: " : String)
                     = "/w gm " ++ "Error creating NPC: " from by decide,
                   String.append_assoc]⟩
        · refine Or.inr ?_
          intro who m h
          rw [h3] at h
          cases h
  · rw [if_neg hm] at he
    exact Or.inl he

theorem repeatEffects_filter_ability (env : Env) (cid g : String) (xs : List Json)
    (r o : Nat) :
    (repeatEffects env cid g xs r o).filter (isCreate "ability") = [] := by
  induction xs generalizing r o with
  | nil => simp [repeatEffects]
  | cons x rest ih => simp [repeatEffects, List.filter_cons, isCreate, attrEffect, ih]

theorem actionEffects_filter_ability (env : Env) (cid : String) (as : List ActionDesc)
    (r o : Nat) :
    (actionEffects env cid as r o).filter (isCreate "ability") = [] := by
  induction as generalizing r o with
  | nil => simp [actionEffects]
  | cons a rest ih => simp [actionEffects, List.filter_cons, isCreate, attrEffect, ih]

theorem effectDescription_abilityEffect (env : Env) (o : Nat) (cid : String)
    (d : NPCDesc) :
    effectDescription (abilityEffect env o cid d) = backgroundText d := by
  simp [effectDescription, abilityEffect, jsToString]

/-- A valid run's trace contains exactly one ability record: the
background-and-personality note. -/
theorem validTrace_filter_ability (env : Env) (msg : Msg) (d : NPCDesc) (r o : Nat) :
    (validTrace env msg d r o).filter (isCreate "ability")
      = [abilityEffect env
          (o + 13 + d.equipment.length + d.skills.length + d.languages.length
             + 2 * d.actions.length)
          (env.objId o) d] := by
  simp [validTrace, scalarListEffects, basicAttrEffects, tailAttrEffects,
    List.filter_append, List.filter_cons, repeatEffects_filter_ability,
    actionEffects_filter_ability, isCreate, attrEffect, abilityEffect]

theorem usedRowIds_nodup (env : Env) (r count : Nat)
    (hinj : Function.Injective env.rowId) : (usedRowIds env r count).Nodup := by
  refine (List.nodup_range count).map ?_
  intro a b h
  have := hinj h
  omega

theorem injEnv_rowId_injective (v : Json) : Function.Injective (injEnv v).rowId := by
  intro a b h
  have := congrArg (fun s => s.data.length) h
  simpa [injEnv] using this

/-! ### The claims -/

/-- C9: a message whose type is not `"api"` or whose content does not
start with `!create-npc` is ignored with no side effects at all: the
handler returns the state unchanged (no record, no chat, no log). -/
theorem c9_unaddressed_ignored (env : Env) (msg : Msg) (s : St)
    (hm : addressed msg = false) : handleInput env msg s = s :=
  handleInput_skip env msg s hm

/-- Witness for C9 at two concrete messages: wrong channel, and an api
message with a different command token. -/
theorem c9_unaddressed_ignored_witness :
    addressed chatMsg = false ∧ handleInput nullEnv chatMsg st0 = st0 ∧
    addressed otherApiMsg = false ∧ handleInput nullEnv otherApiMsg st0 = st0 :=
  ⟨by decide, c9_unaddressed_ignored nullEnv chatMsg st0 (by decide),
   by decide, c9_unaddressed_ignored nullEnv otherApiMsg st0 (by decide)⟩

/-- C2: a decoded descriptor (other than `null`, which C10 covers) that
lacks some required field produces exactly one validation whisper and
nothing else: no record, no log, streams untouched. -/
theorem c2_missing_field_rejected (env : Env) (msg : Msg) (s : St) (v : Json)
    (hm : addressed msg = true)
    (hp : env.parse (stripCommand msg.content) = .ok v)
    (hnn : v ≠ .null)
    (hmiss : ∃ f ∈ requiredFields, jsHasOwn v f = false) :
    handleInput env msg s =
      { s with effects := s.effects ++ [.chat "NPC Creator" invalidDataMsg] } := by
  have hval : requiredFields.all (fun f => jsHasOwn v f) = false := by
    rcases hmiss with ⟨f, hf, hh⟩
    rw [List.all_eq_false]
    exact ⟨f, hf, by simp [hh]⟩
  exact handleInput_ok env msg s _ () hm (tryBlock_invalid env msg s v hp hnn hval)

/-- Witness for C2: the spec's missing-`wisdom` example creates nothing
and emits the single validation whisper. -/
theorem c2_missing_field_rejected_witness :
    addressed grakMsg = true ∧
    (seqEnv noWisdomJson).parse (stripCommand grakMsg.content) = .ok noWisdomJson ∧
    noWisdomJson ≠ .null ∧
    (∃ f ∈ requiredFields, jsHasOwn noWisdomJson f = false) ∧
    handleInput (seqEnv noWisdomJson) grakMsg st0 =
      { st0 with effects := st0.effects ++ [.chat "NPC Creator" invalidDataMsg] } :=
  ⟨by decide, rfl, by simp [noWisdomJson],
   ⟨"wisdom", by decide, by decide⟩,
   c2_missing_field_rejected (seqEnv noWisdomJson) grakMsg st0 noWisdomJson
     (by decide) rfl (by simp [noWisdomJson]) ⟨"wisdom", by decide, by decide⟩⟩

/-- C3: a payload the decoder rejects produces zero records and exactly
one format-error whisper whose text wraps the decoder's message (plus a
log entry, which is not a notification). -/
theorem c3_parse_error_reported (env : Env) (msg : Msg) (s : St) (err : String)
    (hm : addressed msg = true)
    (hp : env.parse (stripCommand msg.content) = .error err) :
    handleInput env msg s =
      { s with effects := s.effects ++
          [.chat "NPC Creator"
             ("/w gm Error creating NPC: " ++
              ("Invalid JSON format. Please check your input. Error: " ++ err)),
           .log ("NPC Creation Error: " ++
              ("Invalid JSON format. Please check your input. Error: " ++ err))] } :=
  handleInput_catch env msg s s _ hm (tryBlock_parse_error env msg s err hp)

/-- Witness for C3 at a concrete decoder failure. -/
theorem c3_parse_error_reported_witness :
    addressed grakMsg = true ∧
    errEnv.parse (stripCommand grakMsg.content) = .error "Unexpected token" ∧
    handleInput errEnv grakMsg st0 =
      { st0 with effects := st0.effects ++
          [.chat "NPC Creator"
             ("/w gm Error creating NPC: " ++
              ("Invalid JSON format. Please check your input. Error: " ++ "Unexpected token")),
           .log ("NPC Creation Error: " ++
              ("Invalid JSON format. Please check your input. Error: " ++ "Unexpected token"))] } :=
  ⟨by decide, rfl,
   c3_parse_error_reported errEnv grakMsg st0 "Unexpected token" (by decide) rfl⟩

/-- C10: when the payload decodes to `null`, the required-field check
throws a `TypeError` inside the `try` block; the handler catches it and
converts it into exactly one generic-error whisper plus a log entry —
not the validation message — creating nothing and returning normally. -/
theorem c10_null_payload_caught (env : Env) (msg : Msg) (s : St)
    (hm : addressed msg = true)
    (hc : msg.content = "!create-npc null")
    (hp : env.parse "null" = .ok .null) :
    handleInput env msg s =
      { s with effects := s.effects ++
          [.chat "NPC Creator" ("/w gm Error creating NPC: " ++ nullReadMsg),
           .log ("NPC Creation Error: " ++ nullReadMsg)] } ∧
    ("/w gm Error creating NPC: " ++ nullReadMsg) ≠ invalidDataMsg := by
  constructor
  · have hp2 : env.parse (stripCommand msg.content) = .ok .null := by
      rw [hc, show stripCommand "!create-npc null" = "null" from by decide]
      exact hp
    exact handleInput_catch env msg s s _ hm (tryBlock_null env msg s hp2)
  · decide

/-- Witness for C10 at the concrete `!create-npc null` message. -/
theorem c10_null_payload_caught_witness :
    addressed nullMsg = true ∧ nullMsg.content = "!create-npc null" ∧
    nullEnv.parse "null" = .ok .null ∧
    (handleInput nullEnv nullMsg st0 =
      { st0 with effects := st0.effects ++
          [.chat "NPC Creator" ("/w gm Error creating NPC: " ++ nullReadMsg),
           .log ("NPC Creation Error: " ++ nullReadMsg)] } ∧
     ("/w gm Error creating NPC: " ++ nullReadMsg) ≠ invalidDataMsg) :=
  ⟨by decide, rfl, rfl,
   c10_null_payload_caught nullEnv nullMsg st0 (by decide) rfl rfl⟩

/-- C1 counterexample: on the spec's own example (N = 2 equipment,
M = 1 skill, K = 2 languages), the run creates 17 scalar/list attribute
records — race, class, level, the six abilities, appearance, background
and personality_traits are all materialized as attributes, so the fixed
scalar count is 12, not 9 — refuting the claimed total 9 + N + M + K = 14. -/
theorem c1_counterexample :
    ((handleInput (seqEnv grak.toJson) grakMsg st0).effects.countP isScalarListAttr = 17)
    ∧ (17 : Nat) ≠ 9 + 2 + 1 + 2 := by
  constructor
  · rw [handleInput_valid_run (seqEnv grak.toJson) grakMsg grak st0 (by decide) rfl]
    decide
  · decide

/-- C1 amended: one valid invocation creates exactly 1 character record,
`12 + N + M + K` scalar/list attribute records (12 fixed scalar fields:
race, class, level, the six abilities, appearance, background,
personality_traits), `2 × A` action attribute records, and 1 ability
record. -/
theorem c1_record_counts (env : Env) (msg : Msg) (d : NPCDesc) (s : St)
    (hm : addressed msg = true)
    (hp : env.parse (stripCommand msg.content) = .ok d.toJson) :
    (handleInput env msg s).effects = s.effects ++ validTrace env msg d s.rid s.oid ∧
    (validTrace env msg d s.rid s.oid).countP (isCreate "character") = 1 ∧
    (validTrace env msg d s.rid s.oid).countP isScalarListAttr
      = 12 + (d.equipment.length + d.skills.length + d.languages.length) ∧
    (validTrace env msg d s.rid s.oid).countP isActionAttr = 2 * d.actions.length ∧
    (validTrace env msg d s.rid s.oid).countP (isCreate "ability") = 1 := by
  obtain ⟨h1, h2, h3, h4⟩ := validTrace_counts env msg d s.rid s.oid
  exact ⟨by rw [handleInput_valid_run env msg d s hm hp], h1, h2, h3, h4⟩

/-- Witness for the amended C1 at the Grak example. -/
theorem c1_record_counts_witness :
    addressed grakMsg = true ∧
    (seqEnv grak.toJson).parse (stripCommand grakMsg.content) = .ok grak.toJson ∧
    ((handleInput (seqEnv grak.toJson) grakMsg st0).effects
        = st0.effects ++ validTrace (seqEnv grak.toJson) grakMsg grak st0.rid st0.oid ∧
     (validTrace (seqEnv grak.toJson) grakMsg grak st0.rid st0.oid).countP
        (isCreate "character") = 1 ∧
     (validTrace (seqEnv grak.toJson) grakMsg grak st0.rid st0.oid).countP
        isScalarListAttr
        = 12 + (grak.equipment.length + grak.skills.length + grak.languages.length) ∧
     (validTrace (seqEnv grak.toJson) grakMsg grak st0.rid st0.oid).countP
        isActionAttr = 2 * grak.actions.length ∧
     (validTrace (seqEnv grak.toJson) grakMsg grak st0.rid st0.oid).countP
        (isCreate "ability") = 1) :=
  ⟨by decide, rfl,
   c1_record_counts (seqEnv grak.toJson) grakMsg grak st0 (by decide) rfl⟩

/-- C4 (code bug): evaluated on the two-action Grak example, the action
loop emits its records in input order, but each action's name record and
description record carry two different freshly drawn row discriminators
(`row5`/`row6` for Slam, `row7`/`row8` for Bite) because the source calls
`generateRowID()` separately in each of the two `createObj` calls — the
pair never shares one row id as the claim (and the Roll20 repeating-row
convention in the bundled docs) requires. -/
theorem c4_rowid_not_shared :
    ((handleInput (seqEnv grak2.toJson) grakMsg st0).effects.filter isActionAttr).map
        effectName
      = ["repeating_npcaction_row5_name", "repeating_npcaction_row6_description",
         "repeating_npcaction_row7_name", "repeating_npcaction_row8_description"]
    ∧ ("row5" : String) ≠ "row6" ∧ ("row7" : String) ≠ "row8" := by
  refine ⟨?_, by decide, by decide⟩
  rw [handleInput_valid_run (seqEnv grak2.toJson) grakMsg grak2 st0 (by decide) rfl]
  decide

/-- C7: for any valid descriptor with background `Former gladiator` and
personality traits `Gruff`, `Loyal`, the run creates exactly one ability
record, and its description is the composed background paragraph followed
by the personality-traits paragraph, with the traits joined by a bare
comma: `"Background: Former gladiator\n\nPersonality Traits: Gruff,Loyal\n\n"`. -/
theorem c7_background_ability_text (env : Env) (msg : Msg) (d : NPCDesc) (s : St)
    (hm : addressed msg = true)
    (hp : env.parse (stripCommand msg.content) = .ok d.toJson)
    (hbg : d.background = "Former gladiator")
    (hpt : d.personality_traits = ["Gruff", "Loyal"]) :
    (handleInput env msg s).effects = s.effects ++ validTrace env msg d s.rid s.oid ∧
    ((validTrace env msg d s.rid s.oid).filter (isCreate "ability")).map
        effectDescription
      = ["Background: Former gladiator\n\nPersonality Traits: Gruff,Loyal\n\n"] := by
  refine ⟨by rw [handleInput_valid_run env msg d s hm hp], ?_⟩
  rw [validTrace_filter_ability]
  simp only [List.map_cons, List.map_nil, effectDescription_abilityEffect,
    backgroundText, hbg, hpt]
  decide

/-- Witness for C7 at the Grak example. -/
theorem c7_background_ability_text_witness :
    addressed grakMsg = true ∧
    (seqEnv grak.toJson).parse (stripCommand grakMsg.content) = .ok grak.toJson ∧
    grak.background = "Former gladiator" ∧
    grak.personality_traits = ["Gruff", "Loyal"] ∧
    ((handleInput (seqEnv grak.toJson) grakMsg st0).effects
        = st0.effects ++ validTrace (seqEnv grak.toJson) grakMsg grak st0.rid st0.oid ∧
     ((validTrace (seqEnv grak.toJson) grakMsg grak st0.rid st0.oid).filter
         (isCreate "ability")).map effectDescription
       = ["Background: Former gladiator\n\nPersonality Traits: Gruff,Loyal\n\n"]) :=
  ⟨by decide, rfl, rfl, rfl,
   c7_background_ability_text (seqEnv grak.toJson) grakMsg grak st0 (by decide) rfl rfl rfl⟩

/-- C8 counterexample: `generateRowID` draws from `Math.random`, which
may repeat a value; with a repeating stream the two equipment records of
the Grak example are created with the identical full attribute name —
i.e. the same row discriminator within the same field group for the same
character — so discriminators are not unconditionally pairwise distinct. -/
theorem c8_counterexample :
    ((handleInput (constRowEnv grak.toJson) grakMsg st0).effects.countP
       (fun e => effectName e == "repeating_equipment_aaaaaaaa_name")) = 2 := by
  rw [handleInput_valid_run (constRowEnv grak.toJson) grakMsg grak st0 (by decide) rfl]
  decide

/-- C8 amended: within one valid invocation every list/action entry
consumes its own draw of the row-id stream (positions `rid, rid+1, …`),
so whenever the underlying random draws are pairwise distinct (an
injective stream), the discriminators of any two entries are pairwise
distinct. -/
theorem c8_rowids_distinct (env : Env) (msg : Msg) (d : NPCDesc) (s : St)
    (hm : addressed msg = true)
    (hp : env.parse (stripCommand msg.content) = .ok d.toJson)
    (hinj : Function.Injective env.rowId) :
    (handleInput env msg s).effects = s.effects ++ validTrace env msg d s.rid s.oid ∧
    (handleInput env msg s).rid = s.rid + rowCount d ∧
    (usedRowIds env s.rid (rowCount d)).Nodup := by
  refine ⟨by rw [handleInput_valid_run env msg d s hm hp],
          by rw [handleInput_valid_run env msg d s hm hp],
          usedRowIds_nodup env s.rid (rowCount d) hinj⟩

/-- Witness for the amended C8 at the Grak example with an injective
row-id stream. -/
theorem c8_rowids_distinct_witness :
    addressed grakMsg = true ∧
    (injEnv grak.toJson).parse (stripCommand grakMsg.content) = .ok grak.toJson ∧
    ((handleInput (injEnv grak.toJson) grakMsg st0).effects
        = st0.effects ++ validTrace (injEnv grak.toJson) grakMsg grak st0.rid st0.oid ∧
     (handleInput (injEnv grak.toJson) grakMsg st0).rid = st0.rid + rowCount grak ∧
     (usedRowIds (injEnv grak.toJson) st0.rid (rowCount grak)).Nodup) :=
  ⟨by decide, rfl,
   c8_rowids_distinct (injEnv grak.toJson) grakMsg grak st0 (by decide) rfl
     (injEnv_rowId_injective grak.toJson)⟩

/-- C5 counterexample: a validation failure (the missing-`wisdom`
example) is reported with a single whisper but writes no log entry, so
not every pipeline error is converted to a notification *plus* a log
entry as the claim states. -/
theorem c5_counterexample :
    (handleInput (seqEnv noWisdomJson) grakMsg st0).effects
      = [Effect.chat "NPC Creator" invalidDataMsg]
    ∧ (handleInput (seqEnv noWisdomJson) grakMsg st0).effects.countP isLog = 0 := by
  have h : handleInput (seqEnv noWisdomJson) grakMsg st0 =
      { st0 with effects := st0.effects ++ [.chat "NPC Creator" invalidDataMsg] } :=
    handleInput_ok _ _ _ _ () (by decide)
      (tryBlock_invalid _ _ _ noWisdomJson rfl (by simp [noWisdomJson]) (by decide))
  rw [h]
  constructor
  · rfl
  · decide

/-- C5 amended: every exception thrown inside the `try` block (format
errors, record-store failures, any other throw) is caught and converted
into one generic whisper plus one log entry; a validation failure
produces exactly one whisper and no log entry; and every chat message
the handler ever adds to the trace is a `/w gm ` whisper — nothing is
broadcast publicly, and the handler always returns normally. -/
theorem c5_errors_contained :
    (∀ (env : Env) (msg : Msg) (s s1 : St) (e : JSError),
       addressed msg = true → tryBlock env msg s = (.error e, s1) →
       handleInput env msg s =
         { s1 with effects := s1.effects ++
             [.chat "NPC Creator" ("/w gm Error creating NPC: " ++ e.message),
              .log ("NPC Creation Error: " ++ e.message)] }) ∧
    (∀ (env : Env) (msg : Msg) (s : St) (v : Json),
       addressed msg = true → env.parse (stripCommand msg.content) = .ok v →
       v ≠ .null → requiredFields.all (fun f => jsHasOwn v f) = false →
       handleInput env msg s =
         { s with effects := s.effects ++ [.chat "NPC Creator" invalidDataMsg] }) ∧
    (∀ (env : Env) (msg : Msg) (s : St),
       ∀ e ∈ (handleInput env msg s).effects, e ∈ s.effects ∨ whisperEffect e) :=
  ⟨fun env msg s s1 e hm h => handleInput_catch env msg s s1 e hm h,
   fun env msg s v hm hp hnn hval =>
     handleInput_ok env msg s _ () hm (tryBlock_invalid env msg s v hp hnn hval),
   whisper_handleInput⟩

/-- Witness for the amended C5: a concrete caught parse error is
converted to whisper + log, and a concrete trace's sole chat message is
a whisper. -/
theorem c5_errors_contained_witness :
    addressed grakMsg = true ∧
    tryBlock errEnv grakMsg st0 =
      (.error (.error ("Invalid JSON format. Please check your input. Error: " ++
        "Unexpected token")), st0) ∧
    handleInput errEnv grakMsg st0 =
      { st0 with effects := st0.effects ++
          [.chat "NPC Creator"
             ("/w gm Error creating NPC: " ++
              JSError.message (.error ("Invalid JSON format. Please check your input. Error: " ++
                "Unexpected token"))),
           .log ("NPC Creation Error: " ++
              JSError.message (.error ("Invalid JSON format. Please check your input. Error: " ++
                "Unexpected token")))] } ∧
    (∀ e ∈ (handleInput errEnv grakMsg st0).effects, e ∈ st0.effects ∨ whisperEffect e) :=
  ⟨by decide, tryBlock_parse_error errEnv grakMsg st0 "Unexpected token" rfl,
   c5_errors_contained.1 errEnv grakMsg st0 st0 _ (by decide)
     (tryBlock_parse_error errEnv grakMsg st0 "Unexpected token" rfl),
   c5_errors_contained.2.2 errEnv grakMsg st0⟩

/-- C6: validation accepts a decoded object exactly when every required
field is an own property, irrespective of the stored values; in
particular the all-falsy descriptor (zeros, empty strings, empty lists)
passes. -/
theorem c6_presence_only_validation :
    (∀ kvs : List (String × Json),
       validateNPCData (.obj kvs) = .ok true ↔
         ∀ f ∈ requiredFields, jsHasOwn (.obj kvs) f = true) ∧
    validateNPCData falsyDescJson = .ok true := by
  constructor
  · intro kvs
    simp [validateNPCData, List.all_eq_true]
  · rfl

/-- Witness for C6: the presence-only equivalence applied to the
all-falsy descriptor's field list. -/
theorem c6_presence_only_validation_witness :
    validateNPCData falsyDescJson = .ok true :=
  c6_presence_only_validation.2

end CreateNPC
